import Mathlib

/-!
Verification of the observable-agent project: a shallow embedding of
`src/observability/cost_tracker.py` (cost accounting aggregator) and
`src/agent/observable_agent.py` (agent execution loop), with theorems
settling the specification claims.

Modelling conventions:
 - Python floats are modelled as rationals (`ℚ`); the cost formula uses
   only decimal literals whose arithmetic is exact at the claimed inputs.
 - Python `None` / optional attributes are modelled as `Option`.
 - Exceptions are modelled with `Except String` / explicit fault values.
 - `asyncio.gather` preserves the order of the task list, so concurrent
   tool execution is modelled as an in-order map over the queued calls.
 - Wall-clock durations are irrelevant to every claim and are fixed at 0.
-/

/-- `StepCost` dataclass from `cost_tracker.py`. -/
structure StepCost where
  step_number : Nat
  model : String
  input_tokens : Nat
  output_tokens : Nat
  cost_usd : ℚ
  is_tool_call : Bool := false
deriving Repr, DecidableEq

/-- `QueryCost` dataclass from `cost_tracker.py` (the per-run ledger). -/
structure QueryCost where
  query : String
  steps : List StepCost := []
  total_cost_usd : ℚ := 0
  total_input_tokens : Nat := 0
  total_output_tokens : Nat := 0
deriving Repr, DecidableEq

/-- `QueryCost.add_step`: append the step and bump the three running totals. -/
def QueryCost.add_step (q : QueryCost) (step : StepCost) : QueryCost :=
  { q with
    steps := q.steps ++ [step]
    total_cost_usd := q.total_cost_usd + step.cost_usd
    total_input_tokens := q.total_input_tokens + step.input_tokens
    total_output_tokens := q.total_output_tokens + step.output_tokens }

/-- `CostTracker` from `cost_tracker.py`: completed ledgers plus the active slot. -/
structure CostTracker where
  queries : List QueryCost := []
  _current_query : Option QueryCost := none
deriving Repr, DecidableEq

/-- `CostTracker.start_query`: open a fresh active ledger keyed by the query text. -/
def CostTracker.start_query (t : CostTracker) (query : String) : CostTracker :=
  { t with _current_query := some { query := query } }

/-- `usage` object on a model response (`prompt_tokens` / `completion_tokens`). -/
structure Usage where
  prompt_tokens : Nat
  completion_tokens : Nat
deriving Repr, DecidableEq

/-- One requested tool call on an assistant message (`id`, `function.name`,
`function.arguments`). -/
structure ToolCall where
  id : String
  name : String
  arguments : String
deriving Repr, DecidableEq

/-- `response.choices[0].message`: optional content and optional tool-call list.
`some []` models a present-but-empty list, which Python treats as falsy. -/
structure AssistantMessage where
  content : Option String
  tool_calls : Option (List ToolCall) := none
deriving Repr, DecidableEq

/-- A model response as consumed by the agent and the cost tracker:
message, optional `usage`, optional `model` attribute. -/
structure LLMResponse where
  message : AssistantMessage
  usage : Option Usage := none
  model : Option String := none
deriving Repr, DecidableEq

/-- The fallback rate function from `cost_tracker.py` lines 62-64:
$0.15 per 1M input tokens plus $0.60 per 1M output tokens. -/
def fallbackCost (input_tokens output_tokens : Nat) : ℚ :=
  (input_tokens : ℚ) / 1000000 * (15 / 100) + (output_tokens : ℚ) / 1000000 * (60 / 100)

/-- `CostTracker.log_completion`: no-op without an active ledger or usage data;
otherwise build a `StepCost` at the fallback rate and `add_step` it. -/
def CostTracker.log_completion (t : CostTracker) (step_number : Nat)
    (response : LLMResponse) (is_tool_call : Bool) : CostTracker :=
  match t._current_query with
  | none => t
  | some cur =>
    match response.usage with
    | none => t
    | some usage =>
      let input_tokens := usage.prompt_tokens
      let output_tokens := usage.completion_tokens
      let model := response.model.getD "gpt-4o-mini"
      let total_cost := fallbackCost input_tokens output_tokens
      let step_cost : StepCost :=
        { step_number := step_number, model := model, input_tokens := input_tokens,
          output_tokens := output_tokens, cost_usd := total_cost,
          is_tool_call := is_tool_call }
      { t with _current_query := some (cur.add_step step_cost) }

/-- `CostTracker.end_query`: seal the active ledger into the completed list. -/
def CostTracker.end_query (t : CostTracker) : CostTracker :=
  match t._current_query with
  | none => t
  | some cur => { queries := t.queries ++ [cur], _current_query := none }

/-- Sum of recorded per-step dollar costs of a ledger. -/
def stepCostSum (l : List StepCost) : ℚ := (l.map StepCost.cost_usd).sum

/-- Sum of recorded per-step input tokens of a ledger. -/
def stepInputSum (l : List StepCost) : Nat := (l.map StepCost.input_tokens).sum

/-- Sum of recorded per-step output tokens of a ledger. -/
def stepOutputSum (l : List StepCost) : Nat := (l.map StepCost.output_tokens).sum

/-- The ledger invariant: each running total equals the sum over recorded steps. -/
def QueryCost.wf (q : QueryCost) : Prop :=
  q.total_cost_usd = stepCostSum q.steps ∧
  q.total_input_tokens = stepInputSum q.steps ∧
  q.total_output_tokens = stepOutputSum q.steps

/-- The tracker invariant: the active ledger, if any, satisfies `QueryCost.wf`. -/
def CostTracker.currentWf (t : CostTracker) : Prop :=
  ∀ qc, t._current_query = some qc → qc.wf

/-- Replay a sequence of `log_completion` calls against a tracker. -/
def applyCompletions (t : CostTracker) (calls : List (Nat × LLMResponse × Bool)) :
    CostTracker :=
  calls.foldl (fun acc c => acc.log_completion c.1 c.2.1 c.2.2) t

lemma QueryCost.wf_add_step {q : QueryCost} (hq : q.wf) (s : StepCost) :
    (q.add_step s).wf := by
  obtain ⟨h1, h2, h3⟩ := hq
  refine ⟨?_, ?_, ?_⟩ <;>
    simp [QueryCost.add_step, stepCostSum, stepInputSum, stepOutputSum, h1, h2, h3]

lemma CostTracker.currentWf_log_completion {t : CostTracker} (ht : t.currentWf)
    (n : Nat) (r : LLMResponse) (b : Bool) : (t.log_completion n r b).currentWf := by
  intro qc hqc
  unfold CostTracker.log_completion at hqc
  cases hcur : t._current_query with
  | none => rw [hcur] at hqc; exact ht qc hqc
  | some cur =>
    rw [hcur] at hqc
    cases hu : r.usage with
    | none => rw [hu] at hqc; exact ht qc hqc
    | some usage =>
      rw [hu] at hqc
      simp only [Option.some.injEq] at hqc
      exact hqc ▸ QueryCost.wf_add_step (ht cur hcur) _

lemma CostTracker.currentWf_applyCompletions {t : CostTracker} (ht : t.currentWf)
    (calls : List (Nat × LLMResponse × Bool)) : (applyCompletions t calls).currentWf := by
  induction calls generalizing t with
  | nil => exact ht
  | cons c rest ih =>
    exact ih (CostTracker.currentWf_log_completion ht c.1 c.2.1 c.2.2)

/-- C1: after any sequence of `log_completion` calls against a freshly opened
ledger, the ledger's running totals equal the sums over its recorded steps,
and `add_step` maintains each total incrementally (new total = old total plus
the appended step's contribution, never a recomputation). Since the sequence
of calls is universally quantified, the invariant holds after every call of
every such sequence. -/
theorem log_completion_totals_eq_sums :
    (∀ (t0 : CostTracker) (q : String) (calls : List (Nat × LLMResponse × Bool)),
      (applyCompletions (t0.start_query q) calls).currentWf) ∧
    (∀ (q : QueryCost) (s : StepCost),
      (q.add_step s).total_cost_usd = q.total_cost_usd + s.cost_usd ∧
      (q.add_step s).total_input_tokens = q.total_input_tokens + s.input_tokens ∧
      (q.add_step s).total_output_tokens = q.total_output_tokens + s.output_tokens ∧
      (q.add_step s).steps = q.steps ++ [s]) := by
  constructor
  · intro t0 q calls
    apply CostTracker.currentWf_applyCompletions
    intro qc hqc
    simp only [CostTracker.start_query, Option.some.injEq] at hqc
    subst hqc
    exact ⟨rfl, rfl, rfl⟩
  · intro q s
    exact ⟨rfl, rfl, rfl, rfl⟩

/-- C6: `log_completion` with an active ledger, usage 1000 in / 500 out and an
unspecified model records a `StepCost` costed at the fixed default rate pair:
exactly 1000/1e6·0.15 + 500/1e6·0.60 = 0.00045 dollars. -/
theorem log_completion_default_rate_cost :
    ∀ qtext : String,
      ((({} : CostTracker).start_query qtext).log_completion 1
          { message := { content := some "x" }, usage := some ⟨1000, 500⟩, model := none }
          false)._current_query.map (fun qc => qc.steps.map StepCost.cost_usd)
        = some [(1000 : ℚ) / 1000000 * (15 / 100) + (500 : ℚ) / 1000000 * (60 / 100)] ∧
      ((1000 : ℚ) / 1000000 * (15 / 100) + (500 : ℚ) / 1000000 * (60 / 100)
        = (0.00045 : ℚ)) := by
  intro qtext
  constructor
  · rfl
  · norm_num

/-- Message roles used in the conversation list of `observable_agent.py`. -/
inductive Role where
  | system
  | user
  | assistant
  | tool
deriving Repr, DecidableEq

/-- One conversation message dict as built by `ObservableAgent.run`. -/
structure Message where
  role : Role
  content : Option String
  tool_calls : Option (List ToolCall) := none
  tool_call_id : Option String := none
  name : Option String := none
deriving Repr, DecidableEq

/-- Result record returned by the loop detector's checks
(`is_looping`, `strategy`, `message`); the detector itself is an external
collaborator and is kept abstract. -/
structure LoopCheckResult where
  is_looping : Bool
  message : String
  strategy : String := ""
deriving Repr, DecidableEq

/-- Modelled from the spec: `ToolCallRecord` of the Tracer module (absent from
`src/`): tool name, parsed input mapping, stringified output, duration. The
parsed-JSON type is abstract (`J`). -/
structure ToolCallRecord (J : Type) where
  tool_name : String
  tool_input : J
  tool_output : String
  duration_ms : ℚ := 0
deriving Repr, DecidableEq

/-- Modelled from the spec: `AgentStep` of the Tracer module (absent from
`src/`): step number, reasoning text, duration, ordered tool-call records,
token counts and cost, populated exactly as `ObservableAgent.run` does. -/
structure AgentStep (J : Type) where
  step_number : Nat
  reasoning : Option String
  duration_ms : ℚ := 0
  tool_calls : List (ToolCallRecord J) := []
  input_tokens : Nat := 0
  output_tokens : Nat := 0
  cost_usd : ℚ := 0
deriving Repr, DecidableEq

/-- The agent's external collaborators, kept abstract: the model gateway
(step number and conversation to response or fault), `json.loads`
(`jsonParse`, with `emptyObj` the parse of an empty object), the tool
registry (`getTool`), and the loop detector as a state machine over an
abstract detector state `DS`. -/
structure AgentEnv (J : Type) (DS : Type) where
  gateway : Nat → List Message → Except String LLMResponse
  jsonParse : String → Except String J
  emptyObj : J
  getTool : String → Option (J → Except String String)
  checkToolCall : DS → String → String → LoopCheckResult × DS
  checkStagnation : DS → String → LoopCheckResult × DS
  trace_id : String

/-- The tuple returned by `ObservableAgent._execute_tool` (sans duration):
tool name, raw argument text, output text. -/
structure ToolResult where
  tool_name : String
  tool_input_str : String
  tool_output : String
deriving Repr, DecidableEq

/-- `ObservableAgent._execute_tool`: resolve the tool, parse its arguments,
invoke it; any fault is caught locally and converted into error text. -/
def executeTool {J DS : Type} (env : AgentEnv J DS) (tool_name : String)
    (tool_input_str : String) : ToolResult :=
  let result :=
    match env.getTool tool_name with
    | none => "Error: Tool \x27" ++ tool_name ++ "\x27 not found"
    | some tool =>
      match env.jsonParse tool_input_str with
      | .error e => "Error executing " ++ tool_name ++ ": " ++ e
      | .ok tool_input =>
        match tool tool_input with
        | .error e => "Error executing " ++ tool_name ++ ": " ++ e
        | .ok r => r
  { tool_name := tool_name, tool_input_str := tool_input_str, tool_output := result }

/-- The tool-role message appended when the loop detector flags a call
(lines 131-136 of `observable_agent.py`). -/
def loopWarningMessage (tc : ToolCall) (msg : String) : Message :=
  { role := .tool, content := some ("⚠️ LOOP DETECTED: " ++ msg),
    tool_call_id := some tc.id, name := some tc.name }

/-- Lines 117-142 of `ObservableAgent.run`: scan the requested calls in order,
consulting the loop detector on each; flagged calls contribute a loop-warning
message, unflagged calls are queued for execution. Returns the warning
messages (in scan order), the queued calls (in request order) and the final
detector state. -/
def dispatchToolCalls {J DS : Type} (env : AgentEnv J DS) :
    DS → List ToolCall → List Message × List ToolCall × DS
  | ds, [] => ([], [], ds)
  | ds, tc :: rest =>
    if (env.checkToolCall ds tc.name tc.arguments).1.is_looping then
      (loopWarningMessage tc (env.checkToolCall ds tc.name tc.arguments).1.message
          :: (dispatchToolCalls env (env.checkToolCall ds tc.name tc.arguments).2 rest).1,
       (dispatchToolCalls env (env.checkToolCall ds tc.name tc.arguments).2 rest).2.1,
       (dispatchToolCalls env (env.checkToolCall ds tc.name tc.arguments).2 rest).2.2)
    else
      ((dispatchToolCalls env (env.checkToolCall ds tc.name tc.arguments).2 rest).1,
       tc :: (dispatchToolCalls env (env.checkToolCall ds tc.name tc.arguments).2 rest).2.1,
       (dispatchToolCalls env (env.checkToolCall ds tc.name tc.arguments).2 rest).2.2)

/-- The registry invocations a step performs: `_execute_tool` (hence
`registry.get_tool`) runs exactly once per queued call. -/
def registryInvocations (queued : List ToolCall) : List (String × String) :=
  queued.map (fun tc => (tc.name, tc.arguments))

/-- The `ToolCallRecord` appended at lines 149-154, built entirely from the
result tuple (name, raw input text, output). -/
def stepAddRecord {J : Type} (step : AgentStep J) (r : ToolResult) (j : J) : AgentStep J :=
  { step with
    tool_calls := step.tool_calls ++
      [{ tool_name := r.tool_name, tool_input := j, tool_output := r.tool_output }] }

/-- The tool-role message appended at lines 156-161: `tool_call_id` comes from
the zipped REQUEST entry, name and content from the RESULT tuple. -/
def resultMessage (tc : ToolCall) (r : ToolResult) : Message :=
  { role := .tool, content := some r.tool_output,
    tool_call_id := some tc.id, name := some r.tool_name }

/-- Lines 148-161 of `ObservableAgent.run`: `zip(tool_calls, tool_results)`;
each pair appends a `ToolCallRecord` built from the RESULT tuple and a
tool-role message whose `tool_call_id` comes from the zipped REQUEST list.
The `json.loads` on line 151 is outside any try: a non-empty argument text
that fails to parse faults (third component `some e`), with the partially
appended messages and records kept. -/
def foldResults {J DS : Type} (env : AgentEnv J DS) :
    List ToolCall → List ToolResult → AgentStep J →
      AgentStep J × List Message × Option String
  | [], _, step => (step, [], none)
  | _ :: _, [], step => (step, [], none)
  | tc :: tcs, r :: rs, step =>
    match (if r.tool_input_str = "" then Except.ok env.emptyObj
           else env.jsonParse r.tool_input_str : Except String J) with
    | .error e => (step, [], some e)
    | .ok j =>
      match foldResults env tcs rs (stepAddRecord step r j) with
      | (step2, msgs, fault) => (step2, resultMessage tc r :: msgs, fault)

/-- Python truthiness of the `tool_calls` attribute: absent (`none`) and
present-but-empty both count as "no tool calls" (lines 104 and 110). -/
def truthyToolCalls : Option (List ToolCall) → Option (List ToolCall)
  | some (c :: cs) => some (c :: cs)
  | _ => none

/-- Python truthiness of the reasoning text (`if reasoning:` on line 167):
`None` and the empty string are falsy. -/
def truthyStr : Option String → Option String
  | some s => if s = "" then none else some s
  | none => none

/-- Mutable state threaded through the loop body: conversation, detector
state, cost tracker, steps handed to the tracer, registry invocations. -/
structure LoopSt (J DS : Type) where
  messages : List Message
  ds : DS
  tracker : CostTracker
  steps_logged : List (AgentStep J)
  invoked : List (String × String)

/-- How one pass through the `for` loop ends: `ok` carries the
`final_answer` variable (still `none` when the loop exhausted `max_steps`,
or when a final assistant turn had null content) and the last value of
`step_number`; `err` models an exception escaping to the `except` block. -/
inductive LoopRes (J DS : Type) where
  | ok (final_answer : Option String) (last : Nat) (st : LoopSt J DS)
  | err (e : String) (last : Nat) (st : LoopSt J DS)

/-- The usage/cost fields set on the step record (lines 90-98). -/
def stepWithUsage {J : Type} (step : AgentStep J) : Option Usage → AgentStep J
  | none => step
  | some u =>
    { step with input_tokens := u.prompt_tokens, output_tokens := u.completion_tokens,
                cost_usd := fallbackCost u.prompt_tokens u.completion_tokens }

/-- The assistant message appended to the conversation (lines 101-105):
content is the reasoning, `tool_calls` is the truthy-filtered list. -/
def assistantMessageOf (response : LLMResponse) : Message :=
  { role := .assistant, content := response.message.content,
    tool_calls := truthyToolCalls response.message.tool_calls }

/-- The step record created at lines 83-98: step number, reasoning, and the
usage-derived token counts and cost. -/
def stepRecordOf (J : Type) (n : Nat) (response : LLMResponse) : AgentStep J :=
  stepWithUsage { step_number := n, reasoning := response.message.content } response.usage

/-- The `for step_number in range(1, max_steps + 1)` loop of
`ObservableAgent.run`, by recursion on the remaining iteration count;
`last` is the previous value of `step_number`. -/
def loopSteps {J DS : Type} (env : AgentEnv J DS) :
    Nat → Nat → LoopSt J DS → LoopRes J DS
  | 0, last, st => .ok none last st
  | remaining + 1, last, st =>
    match env.gateway (last + 1) st.messages with
    | .error e => .err e (last + 1) st
    | .ok response =>
      match truthyToolCalls response.message.tool_calls with
      | none =>
        .ok response.message.content (last + 1)
          { st with messages := st.messages ++ [assistantMessageOf response],
                    tracker := st.tracker.log_completion (last + 1) response false,
                    steps_logged := st.steps_logged ++ [stepRecordOf J (last + 1) response] }
      | some tcs =>
        match dispatchToolCalls env st.ds tcs with
        | (warns, queued, ds1) =>
          match foldResults env tcs
              (queued.map (fun tc => executeTool env tc.name tc.arguments))
              (stepRecordOf J (last + 1) response) with
          | (_, resMsgs, some e) =>
            .err e (last + 1)
              { messages := st.messages ++ [assistantMessageOf response] ++ warns ++ resMsgs,
                ds := ds1, tracker := st.tracker.log_completion (last + 1) response false,
                steps_logged := st.steps_logged,
                invoked := st.invoked ++ registryInvocations queued }
          | (step2, resMsgs, none) =>
            match truthyStr response.message.content with
            | none =>
              loopSteps env remaining (last + 1)
                { messages := st.messages ++ [assistantMessageOf response] ++ warns ++ resMsgs,
                  ds := ds1, tracker := st.tracker.log_completion (last + 1) response false,
                  steps_logged := st.steps_logged ++ [step2],
                  invoked := st.invoked ++ registryInvocations queued }
            | some r =>
              match env.checkStagnation ds1 r with
              | (stag, ds2) =>
                if stag.is_looping then
                  .ok (some ("Agent stopped due to stagnation: " ++ stag.message)) (last + 1)
                    { messages := st.messages ++ [assistantMessageOf response] ++ warns ++ resMsgs,
                      ds := ds2, tracker := st.tracker.log_completion (last + 1) response false,
                      steps_logged := st.steps_logged ++ [step2],
                      invoked := st.invoked ++ registryInvocations queued }
                else
                  loopSteps env remaining (last + 1)
                    { messages := st.messages ++ [assistantMessageOf response] ++ warns ++ resMsgs,
                      ds := ds2, tracker := st.tracker.log_completion (last + 1) response false,
                      steps_logged := st.steps_logged ++ [step2],
                      invoked := st.invoked ++ registryInvocations queued }

/-- The dict returned by `ObservableAgent.run`; `steps := none` models the
error-branch dict, which carries no `steps` key. -/
structure RunResultDict where
  answer : String
  trace_id : String
  steps : Option Nat
  status : String
deriving Repr, DecidableEq

/-- Full observable outcome of a run: the returned dict plus the final
conversation, the steps handed to the tracer, the cost tracker state, the
detector state and the registry invocations. -/
structure RunOutput (J DS : Type) where
  result : RunResultDict
  messages : List Message
  steps_logged : List (AgentStep J)
  tracker : CostTracker
  invoked : List (String × String)

/-- The initial conversation (optional system prompt, then the user query). -/
def initialMessages (system_prompt : Option String) (user_query : String) :
    List Message :=
  (match system_prompt with
   | some sp => [{ role := .system, content := some sp }]
   | none => []) ++ [{ role := .user, content := some user_query }]

/-- The max-steps-exhausted synthetic answer (line 176). -/
def maxStepsAnswer (max_steps : Nat) : String :=
  "Agent reached max steps (" ++ toString max_steps ++ ") without completing the task."

/-- `ObservableAgent.run`: open trace and ledger, run the step loop, then
return the completed-branch dict, or the error-branch dict (whose answer is
the fault description and which has no steps field) if a fault escaped; in
either branch the ledger is sealed with `end_query`. -/
def ObservableAgent.run {J DS : Type} (env : AgentEnv J DS) (max_steps : Nat)
    (system_prompt : Option String) (user_query : String)
    (tracker0 : CostTracker) (ds0 : DS) : RunOutput J DS :=
  match loopSteps env max_steps 0
      { messages := initialMessages system_prompt user_query, ds := ds0,
        tracker := tracker0.start_query user_query, steps_logged := [], invoked := [] } with
  | .ok fa last st =>
    { result := { answer := fa.getD (maxStepsAnswer max_steps), trace_id := env.trace_id,
                  steps := some last, status := "completed" },
      messages := st.messages, steps_logged := st.steps_logged,
      tracker := st.tracker.end_query, invoked := st.invoked }
  | .err e _ st =>
    { result := { answer := "Error: " ++ e, trace_id := env.trace_id,
                  steps := none, status := "error" },
      messages := st.messages, steps_logged := st.steps_logged,
      tracker := st.tracker.end_query, invoked := st.invoked }

/-- The loop state carried by either kind of loop exit. -/
def LoopRes.state {J DS : Type} : LoopRes J DS → LoopSt J DS
  | .ok _ _ st => st
  | .err _ _ st => st

/-- Tracker shape during a run: completed list untouched, active ledger open
and keyed by the run's query text. -/
def trackerOpen (Q : List QueryCost) (q : String) (t : CostTracker) : Prop :=
  t.queries = Q ∧ ∃ qc, t._current_query = some qc ∧ qc.query = q

lemma trackerOpen_log_completion {Q : List QueryCost} {q : String} {t : CostTracker}
    (ht : trackerOpen Q q t) (n : Nat) (r : LLMResponse) (b : Bool) :
    trackerOpen Q q (t.log_completion n r b) := by
  obtain ⟨hQ, qc, hcur, hkey⟩ := ht
  unfold CostTracker.log_completion
  rw [hcur]
  cases r.usage with
  | none => exact ⟨hQ, qc, hcur, hkey⟩
  | some usage =>
    exact ⟨hQ, qc.add_step _, rfl, hkey⟩

lemma loopSteps_trackerOpen {J DS : Type} (env : AgentEnv J DS)
    {Q : List QueryCost} {q : String} :
    ∀ (n last : Nat) (st : LoopSt J DS), trackerOpen Q q st.tracker →
      trackerOpen Q q (loopSteps env n last st).state.tracker := by
  intro n
  induction n with
  | zero => intro last st ht; exact ht
  | succ k ih =>
    intro last st ht
    show trackerOpen Q q (loopSteps env (k + 1) last st).state.tracker
    rw [loopSteps]
    split
    · exact ht
    next response hgw =>
      have ht1 := trackerOpen_log_completion ht (last + 1) response false
      split
      · exact ht1
      next tcs htc =>
        split
        next warns queued ds1 hdt =>
          split
          · exact ht1
          next step2 resMsgs hfr =>
            split
            · exact ih (last + 1) _ ht1
            next r hts =>
              split
              next stag ds2 hcs =>
                split
                · exact ht1
                · exact ih (last + 1) _ ht1

lemma run_match_state {J DS : Type} (env : AgentEnv J DS) (max_steps : Nat)
    (sp : Option String) (q : String) (tr0 : CostTracker) (ds0 : DS) :
    (ObservableAgent.run env max_steps sp q tr0 ds0).tracker
      = (loopSteps env max_steps 0
          { messages := initialMessages sp q, ds := ds0,
            tracker := tr0.start_query q, steps_logged := [], invoked := [] }).state.tracker.end_query := by
  unfold ObservableAgent.run
  cases loopSteps env max_steps 0
      { messages := initialMessages sp q, ds := ds0,
        tracker := tr0.start_query q, steps_logged := [], invoked := [] } with
  | ok fa last st => rfl
  | err e last st => rfl

lemma run_result_of_loop_ok {J DS : Type} {env : AgentEnv J DS} {max_steps : Nat}
    {sp : Option String} {q : String} {tr0 : CostTracker} {ds0 : DS}
    {fa : Option String} {last : Nat} {st : LoopSt J DS}
    (h : loopSteps env max_steps 0
        { messages := initialMessages sp q, ds := ds0,
          tracker := tr0.start_query q, steps_logged := [], invoked := [] }
      = LoopRes.ok fa last st) :
    ObservableAgent.run env max_steps sp q tr0 ds0
      = { result := { answer := fa.getD (maxStepsAnswer max_steps),
                      trace_id := env.trace_id, steps := some last, status := "completed" },
          messages := st.messages, steps_logged := st.steps_logged,
          tracker := st.tracker.end_query, invoked := st.invoked } := by
  unfold ObservableAgent.run
  rw [h]

lemma run_result_of_loop_err {J DS : Type} {env : AgentEnv J DS} {max_steps : Nat}
    {sp : Option String} {q : String} {tr0 : CostTracker} {ds0 : DS}
    {e : String} {last : Nat} {st : LoopSt J DS}
    (h : loopSteps env max_steps 0
        { messages := initialMessages sp q, ds := ds0,
          tracker := tr0.start_query q, steps_logged := [], invoked := [] }
      = LoopRes.err e last st) :
    ObservableAgent.run env max_steps sp q tr0 ds0
      = { result := { answer := "Error: " ++ e,
                      trace_id := env.trace_id, steps := none, status := "error" },
          messages := st.messages, steps_logged := st.steps_logged,
          tracker := st.tracker.end_query, invoked := st.invoked } := by
  unfold ObservableAgent.run
  rw [h]

/-- C10: after every run (completed or error outcome alike), the cost
tracker's active slot is cleared and the ledger opened for that run — keyed
by the run's query — has been appended exactly once to the completed list. -/
theorem run_seals_ledger_once {J DS : Type} (env : AgentEnv J DS) (max_steps : Nat)
    (sp : Option String) (q : String) (tr0 : CostTracker) (ds0 : DS) :
    (ObservableAgent.run env max_steps sp q tr0 ds0).tracker._current_query = none ∧
    ∃ qc, (ObservableAgent.run env max_steps sp q tr0 ds0).tracker.queries
        = tr0.queries ++ [qc] ∧ qc.query = q := by
  have hopen : trackerOpen tr0.queries q (tr0.start_query q) :=
    ⟨rfl, { query := q }, rfl, rfl⟩
  have hfin := loopSteps_trackerOpen env max_steps 0
    { messages := initialMessages sp q, ds := ds0,
      tracker := tr0.start_query q, steps_logged := [], invoked := [] } hopen
  obtain ⟨hQ, qc, hcur, hkey⟩ := hfin
  rw [run_match_state]
  unfold CostTracker.end_query
  rw [hcur]
  exact ⟨rfl, qc, by rw [hQ], hkey⟩

/-- C8 (amended): every run returns a structured result whose `trace_id` is
the trace identifier and whose status is `completed` or `error`; a completed
result carries a steps count, while an error result carries the fault
description as its answer but no steps field (the error-branch dict on
lines 194-198 has no `steps` key). -/
theorem run_result_fields {J DS : Type} (env : AgentEnv J DS) (max_steps : Nat)
    (sp : Option String) (q : String) (tr0 : CostTracker) (ds0 : DS) :
    (ObservableAgent.run env max_steps sp q tr0 ds0).result.trace_id = env.trace_id ∧
    (((ObservableAgent.run env max_steps sp q tr0 ds0).result.status = "completed" ∧
       ∃ n, (ObservableAgent.run env max_steps sp q tr0 ds0).result.steps = some n) ∨
     (∃ e, (ObservableAgent.run env max_steps sp q tr0 ds0).result.status = "error" ∧
       (ObservableAgent.run env max_steps sp q tr0 ds0).result.steps = none ∧
       (ObservableAgent.run env max_steps sp q tr0 ds0).result.answer = "Error: " ++ e)) := by
  cases h : loopSteps env max_steps 0
      { messages := initialMessages sp q, ds := ds0,
        tracker := tr0.start_query q, steps_logged := [], invoked := [] } with
  | ok fa last st =>
    rw [run_result_of_loop_ok h]
    exact ⟨rfl, Or.inl ⟨rfl, last, rfl⟩⟩
  | err e last st =>
    rw [run_result_of_loop_err h]
    exact ⟨rfl, Or.inr ⟨e, rfl, rfl, rfl⟩⟩

/-- Concrete environment whose model gateway faults immediately. -/
def gatewayFaultEnv : AgentEnv Unit Unit :=
  { gateway := fun _ _ => .error "boom",
    jsonParse := fun _ => .error "Expecting value",
    emptyObj := (),
    getTool := fun _ => none,
    checkToolCall := fun ds _ _ => ({ is_looping := false, message := "" }, ds),
    checkStagnation := fun ds _ => ({ is_looping := false, message := "" }, ds),
    trace_id := "trace-c8" }

/-- C8 (counterexample to the claim as stated): on an unrecovered fault the
returned result has status `error` and the fault description as answer, but
its steps field is ABSENT — the error-branch dict does not contain all four
fields, contradicting the claim that both terminal outcomes carry
`steps_taken`. -/
theorem run_error_result_lacks_steps :
    (ObservableAgent.run gatewayFaultEnv 5 none "q" {} ()).result
      = { answer := "Error: boom", trace_id := "trace-c8",
          steps := none, status := "error" } ∧
    (ObservableAgent.run gatewayFaultEnv 5 none "q" {} ()).result.steps = none := by
  exact ⟨rfl, rfl⟩

/-- C9: a run whose loop ends without an unrecovered fault — which includes
both max-steps exhaustion (`final_answer` still unset) and a stagnation flag
(synthetic stagnation answer) — returns status `completed`, never a distinct
status and never `error`, with the terminal condition reflected only in the
answer text; and a first-step stagnation flag concretely yields status
`completed` with the synthetic stagnation answer. -/
theorem nonfault_termination_status_completed {J DS : Type} :
    (∀ (env : AgentEnv J DS) (max_steps : Nat) (sp : Option String) (q : String)
       (tr0 : CostTracker) (ds0 : DS) (fa : Option String) (last : Nat) (st : LoopSt J DS),
      loopSteps env max_steps 0
          { messages := initialMessages sp q, ds := ds0,
            tracker := tr0.start_query q, steps_logged := [], invoked := [] }
        = LoopRes.ok fa last st →
      (ObservableAgent.run env max_steps sp q tr0 ds0).result.status = "completed" ∧
      (ObservableAgent.run env max_steps sp q tr0 ds0).result.answer
        = fa.getD (maxStepsAnswer max_steps)) ∧
    (∀ (env : AgentEnv J DS) (remaining last : Nat) (st : LoopSt J DS)
       (response : LLMResponse) (tcs : List ToolCall) (r : String),
      env.gateway (last + 1) st.messages = .ok response →
      truthyToolCalls response.message.tool_calls = some tcs →
      truthyStr response.message.content = some r →
      (foldResults env tcs
        ((dispatchToolCalls env st.ds tcs).2.1.map
          (fun tc => executeTool env tc.name tc.arguments))
        (stepRecordOf J (last + 1) response)).2.2 = none →
      (env.checkStagnation (dispatchToolCalls env st.ds tcs).2.2 r).1.is_looping = true →
      ∃ st', loopSteps env (remaining + 1) last st
        = LoopRes.ok
            (some ("Agent stopped due to stagnation: " ++
              (env.checkStagnation (dispatchToolCalls env st.ds tcs).2.2 r).1.message))
            (last + 1) st') := by
  constructor
  · intro env max_steps sp q tr0 ds0 fa last st h
    rw [run_result_of_loop_ok h]
    exact ⟨rfl, rfl⟩
  · intro env remaining last st response tcs r hgw htc hts hfr hstag
    rw [loopSteps, hgw]
    simp only [htc]
    rcases hdt : dispatchToolCalls env st.ds tcs with ⟨warns, queued, ds1⟩
    rw [hdt] at hfr hstag
    dsimp only at hfr hstag
    rcases hfold : foldResults env tcs
        (queued.map (fun tc => executeTool env tc.name tc.arguments))
        (stepRecordOf J (last + 1) response) with ⟨step2, resMsgs, fault⟩
    rw [hfold] at hfr
    dsimp only at hfr
    subst hfr
    dsimp only
    rw [hts]
    dsimp only
    rw [if_pos hstag]
    exact ⟨_, rfl⟩

lemma loopSteps_no_tool_calls {J DS : Type} (env : AgentEnv J DS) (k last : Nat)
    (st : LoopSt J DS) (response : LLMResponse)
    (hgw : env.gateway (last + 1) st.messages = .ok response)
    (htc : truthyToolCalls response.message.tool_calls = none) :
    loopSteps env (k + 1) last st
      = LoopRes.ok response.message.content (last + 1)
          { st with messages := st.messages ++ [assistantMessageOf response],
                    tracker := st.tracker.log_completion (last + 1) response false,
                    steps_logged := st.steps_logged ++ [stepRecordOf J (last + 1) response] } := by
  rw [loopSteps, hgw]
  simp only [htc]

/-- C4 (amended): a run whose first model response carries no tool-call
requests and non-null content terminates after exactly 1 step with status
`completed`, and the returned answer is exactly that content. (When the
content is null, Python falls through to the max-steps text instead; see the
counterexample theorem.) -/
theorem run_first_response_no_tools {J DS : Type} (env : AgentEnv J DS)
    (max_steps : Nat) (sp : Option String) (q : String) (tr0 : CostTracker)
    (ds0 : DS) (response : LLMResponse) (s : String)
    (hms : 1 ≤ max_steps)
    (hgw : env.gateway 1 (initialMessages sp q) = .ok response)
    (htc : truthyToolCalls response.message.tool_calls = none)
    (hc : response.message.content = some s) :
    (ObservableAgent.run env max_steps sp q tr0 ds0).result.answer = s ∧
    (ObservableAgent.run env max_steps sp q tr0 ds0).result.steps = some 1 ∧
    (ObservableAgent.run env max_steps sp q tr0 ds0).result.status = "completed" ∧
    (ObservableAgent.run env max_steps sp q tr0 ds0).steps_logged.length = 1 := by
  obtain ⟨k, rfl⟩ : ∃ k, max_steps = k + 1 := ⟨max_steps - 1, by omega⟩
  have hloop := loopSteps_no_tool_calls env k 0
    { messages := initialMessages sp q, ds := ds0,
      tracker := tr0.start_query q, steps_logged := [], invoked := [] }
    response hgw htc
  rw [run_result_of_loop_ok hloop]
  exact ⟨by rw [hc]; rfl, rfl, rfl, rfl⟩

/-- Concrete environment for the claimed scenario: no registered tools and a
first response of content "4" with no tool calls. -/
def answer4Env : AgentEnv Unit Unit :=
  { gateway := fun _ _ => .ok { message := { content := some "4", tool_calls := none } },
    jsonParse := fun _ => .error "Expecting value",
    emptyObj := (),
    getTool := fun _ => none,
    checkToolCall := fun ds _ _ => ({ is_looping := false, message := "" }, ds),
    checkStagnation := fun ds _ => ({ is_looping := false, message := "" }, ds),
    trace_id := "trace-c4" }

theorem run_first_response_no_tools_witness :
    (ObservableAgent.run answer4Env 10 none "What is 2+2?" {} ()).result.answer = "4" ∧
    (ObservableAgent.run answer4Env 10 none "What is 2+2?" {} ()).result.steps = some 1 ∧
    (ObservableAgent.run answer4Env 10 none "What is 2+2?" {} ()).result.status = "completed" ∧
    (ObservableAgent.run answer4Env 10 none "What is 2+2?" {} ()).steps_logged.length = 1 :=
  run_first_response_no_tools answer4Env 10 none "What is 2+2?" {} ()
    { message := { content := some "4", tool_calls := none } } "4"
    (by decide) rfl rfl rfl

/-- Concrete environment whose model returns a null-content, no-tool-call
response on the first step. -/
def nullContentEnv : AgentEnv Unit Unit :=
  { gateway := fun _ _ => .ok { message := { content := none, tool_calls := none } },
    jsonParse := fun _ => .error "Expecting value",
    emptyObj := (),
    getTool := fun _ => none,
    checkToolCall := fun ds _ _ => ({ is_looping := false, message := "" }, ds),
    checkStagnation := fun ds _ => ({ is_looping := false, message := "" }, ds),
    trace_id := "trace-c4n" }

/-- C4 (counterexample to the claim as stated): the first response carries no
tool calls and the run does stop after exactly 1 step with status
`completed`, yet the returned answer is the synthetic max-steps text, not
the assistant turn's content — which is null here, so `final_answer is None`
falls through to line 176. -/
theorem run_null_content_answer_not_content :
    nullContentEnv.gateway 1 (initialMessages none "q")
      = .ok { message := { content := none, tool_calls := none } } ∧
    (ObservableAgent.run nullContentEnv 10 none "q" {} ()).result.status = "completed" ∧
    (ObservableAgent.run nullContentEnv 10 none "q" {} ()).result.steps = some 1 ∧
    (ObservableAgent.run nullContentEnv 10 none "q" {} ()).result.answer
      = maxStepsAnswer 10 := by
  exact ⟨rfl, rfl, rfl, rfl⟩

lemma foldResults_fault_none {J DS : Type} (env : AgentEnv J DS)
    (hparse : ∀ s, ∃ j, env.jsonParse s = .ok j) :
    ∀ (tcs : List ToolCall) (rs : List ToolResult) (step : AgentStep J),
      (foldResults env tcs rs step).2.2 = none := by
  intro tcs
  induction tcs with
  | nil => intro rs step; rfl
  | cons tc tcs ih =>
    intro rs step
    cases rs with
    | nil => rfl
    | cons r rs =>
      rw [foldResults]
      rcases hp : (if r.tool_input_str = "" then Except.ok env.emptyObj
          else env.jsonParse r.tool_input_str : Except String J) with e | j
      · exfalso
        by_cases he : r.tool_input_str = ""
        · rw [if_pos he] at hp; cases hp
        · rw [if_neg he] at hp
          obtain ⟨j, hj⟩ := hparse r.tool_input_str
          rw [hj] at hp
          cases hp
      · dsimp only
        rcases hrec : foldResults env tcs rs (stepAddRecord step r j) with ⟨step2, msgs, fault⟩
        have := ih rs (stepAddRecord step r j)
        rw [hrec] at this
        exact this

lemma loopSteps_all_tool_calls {J DS : Type} (env : AgentEnv J DS)
    (hgw : ∀ (k : Nat) (msgs : List Message), ∃ resp,
        env.gateway k msgs = .ok resp ∧
        ∃ tcs, truthyToolCalls resp.message.tool_calls = some tcs)
    (hstag : ∀ (ds : DS) (r : String), (env.checkStagnation ds r).1.is_looping = false)
    (hparse : ∀ s, ∃ j, env.jsonParse s = .ok j) :
    ∀ (n last : Nat) (st : LoopSt J DS), ∃ st',
      loopSteps env n last st = .ok none (last + n) st' ∧
      st'.steps_logged.length = st.steps_logged.length + n := by
  intro n
  induction n with
  | zero => intro last st; exact ⟨st, rfl, rfl⟩
  | succ k ih =>
    intro last st
    obtain ⟨resp, hresp, tcs, htcs⟩ := hgw (last + 1) st.messages
    rw [loopSteps, hresp]
    simp only [htcs]
    rcases hdt : dispatchToolCalls env st.ds tcs with ⟨warns, queued, ds1⟩
    dsimp only
    rcases hfold : foldResults env tcs
        (queued.map (fun tc => executeTool env tc.name tc.arguments))
        (stepRecordOf J (last + 1) resp) with ⟨step2, resMsgs, fault⟩
    have hf := foldResults_fault_none env hparse tcs
      (queued.map (fun tc => executeTool env tc.name tc.arguments))
      (stepRecordOf J (last + 1) resp)
    rw [hfold] at hf
    dsimp only at hf
    subst hf
    dsimp only
    cases hts : truthyStr resp.message.content with
    | none =>
      obtain ⟨st', h1, h2⟩ := ih (last + 1)
        { messages := st.messages ++ [assistantMessageOf resp] ++ warns ++ resMsgs,
          ds := ds1, tracker := st.tracker.log_completion (last + 1) resp false,
          steps_logged := st.steps_logged ++ [step2],
          invoked := st.invoked ++ registryInvocations queued }
      refine ⟨st', ?_, ?_⟩
      · rw [h1]
        have harith : last + 1 + k = last + (k + 1) := by omega
        rw [harith]
      · simp only [List.length_append, List.length_cons, List.length_nil] at h2
        omega
    | some r =>
      dsimp only
      rw [if_neg (by rw [hstag ds1 r]; exact Bool.false_ne_true)]
      obtain ⟨st', h1, h2⟩ := ih (last + 1)
        { messages := st.messages ++ [assistantMessageOf resp] ++ warns ++ resMsgs,
          ds := (env.checkStagnation ds1 r).2,
          tracker := st.tracker.log_completion (last + 1) resp false,
          steps_logged := st.steps_logged ++ [step2],
          invoked := st.invoked ++ registryInvocations queued }
      refine ⟨st', ?_, ?_⟩
      · rw [h1]
        have harith : last + 1 + k = last + (k + 1) := by omega
        rw [harith]
      · simp only [List.length_append, List.length_cons, List.length_nil] at h2
        omega

/-- C5 (amended): a run in which every model response requests tool calls,
stagnation is never flagged, and every tool-call argument text parses as
JSON, executes exactly `max_steps` steps and terminates with the generic
max-steps-exhausted answer, `steps == max_steps` and status `completed`.
(Without the argument-parse condition the run can instead abort with status
`error` via the unguarded `json.loads` on line 151; see the counterexample.) -/
theorem run_all_tools_exhausts_max_steps {J DS : Type} (env : AgentEnv J DS)
    (max_steps : Nat) (sp : Option String) (q : String) (tr0 : CostTracker) (ds0 : DS)
    (hgw : ∀ (k : Nat) (msgs : List Message), ∃ resp,
        env.gateway k msgs = .ok resp ∧
        ∃ tcs, truthyToolCalls resp.message.tool_calls = some tcs)
    (hstag : ∀ (ds : DS) (r : String), (env.checkStagnation ds r).1.is_looping = false)
    (hparse : ∀ s, ∃ j, env.jsonParse s = .ok j) :
    (ObservableAgent.run env max_steps sp q tr0 ds0).result.answer
      = maxStepsAnswer max_steps ∧
    (ObservableAgent.run env max_steps sp q tr0 ds0).result.steps = some max_steps ∧
    (ObservableAgent.run env max_steps sp q tr0 ds0).result.status = "completed" ∧
    (ObservableAgent.run env max_steps sp q tr0 ds0).steps_logged.length = max_steps := by
  obtain ⟨st', h1, h2⟩ := loopSteps_all_tool_calls env hgw hstag hparse max_steps 0
    { messages := initialMessages sp q, ds := ds0,
      tracker := tr0.start_query q, steps_logged := [], invoked := [] }
  rw [run_result_of_loop_ok h1]
  refine ⟨rfl, by simp, rfl, by simpa using h2⟩

/-- Concrete environment whose model always requests one tool call with
parseable arguments and whose detector never flags anything. -/
def alwaysToolEnv : AgentEnv Unit Unit :=
  { gateway := fun _ _ => .ok
      { message := { content := some "thinking",
                     tool_calls := some [{ id := "id1", name := "t", arguments := "args" }] } },
    jsonParse := fun _ => .ok (),
    emptyObj := (),
    getTool := fun name => if name = "t" then some (fun _ => .ok "out") else none,
    checkToolCall := fun ds _ _ => ({ is_looping := false, message := "" }, ds),
    checkStagnation := fun ds _ => ({ is_looping := false, message := "" }, ds),
    trace_id := "trace-c5" }

theorem run_all_tools_exhausts_max_steps_witness :
    (ObservableAgent.run alwaysToolEnv 3 none "q" {} ()).result.answer
      = maxStepsAnswer 3 ∧
    (ObservableAgent.run alwaysToolEnv 3 none "q" {} ()).result.steps = some 3 ∧
    (ObservableAgent.run alwaysToolEnv 3 none "q" {} ()).result.status = "completed" ∧
    (ObservableAgent.run alwaysToolEnv 3 none "q" {} ()).steps_logged.length = 3 :=
  run_all_tools_exhausts_max_steps alwaysToolEnv 3 none "q" {} ()
    (fun _ _ => ⟨{ message := { content := some "thinking",
                                tool_calls := some [{ id := "id1", name := "t",
                                                      arguments := "args" }] } },
      rfl, [{ id := "id1", name := "t", arguments := "args" }], rfl⟩)
    (fun _ _ => rfl)
    (fun _ => ⟨(), rfl⟩)

/-- Concrete environment where every response requests one tool call whose
argument text is not valid JSON (only the text "obj" parses). -/
def malformedArgsEnv : AgentEnv Unit Unit :=
  { gateway := fun _ _ => .ok
      { message := { content := some "thinking",
                     tool_calls := some [{ id := "id1", name := "t",
                                           arguments := "notjson" }] } },
    jsonParse := fun s => if s = "obj" then .ok () else .error "Expecting value",
    emptyObj := (),
    getTool := fun _ => none,
    checkToolCall := fun ds _ _ => ({ is_looping := false, message := "" }, ds),
    checkStagnation := fun ds _ => ({ is_looping := false, message := "" }, ds),
    trace_id := "trace-c5b" }

/-- C5 (counterexample to the claim as stated): every model response requests
tool calls and stagnation is never flagged, yet with `max_steps = 2` the run
does not execute 2 steps and does not return the max-steps answer: the
unguarded `json.loads` on line 151 raises on the malformed argument text and
the run aborts at step 1 with status `error` and no steps field. -/
theorem run_all_tools_malformed_args_errors :
    malformedArgsEnv.gateway 1 (initialMessages none "q")
      = .ok { message := { content := some "thinking",
                           tool_calls := some [{ id := "id1", name := "t",
                                                 arguments := "notjson" }] } } ∧
    (malformedArgsEnv.checkStagnation () "thinking").1.is_looping = false ∧
    (ObservableAgent.run malformedArgsEnv 2 none "q" {} ()).result.status = "error" ∧
    (ObservableAgent.run malformedArgsEnv 2 none "q" {} ()).result.answer
      = "Error: Expecting value" ∧
    (ObservableAgent.run malformedArgsEnv 2 none "q" {} ()).result.steps = none := by
  exact ⟨rfl, rfl, rfl, rfl, rfl⟩

/-- Concrete environment for a step with two sibling tool calls: the first
call names an unregistered tool and carries malformed argument text, the
second resolves and succeeds. -/
def siblingFaultEnv : AgentEnv Unit Unit :=
  { gateway := fun _ _ => .ok
      { message := { content := some "r",
                     tool_calls := some
                       [{ id := "id1", name := "calc", arguments := "notjson" },
                        { id := "id2", name := "echo", arguments := "obj" }] } },
    jsonParse := fun s => if s = "obj" then .ok () else .error "Expecting value",
    emptyObj := (),
    getTool := fun name => if name = "echo" then some (fun _ => .ok "hello") else none,
    checkToolCall := fun ds _ _ => ({ is_looping := false, message := "" }, ds),
    checkStagnation := fun ds _ => ({ is_looping := false, message := "" }, ds),
    trace_id := "trace-c3" }

/-- C3 (code bug): `_execute_tool` does catch each fault locally and convert
it to non-empty error text, and the sibling tool call completes normally
("hello"); but the unguarded `json.loads` on line 151 re-parses the faulty
call's argument text outside any try, so the whole run aborts with status
`error` and NO `ToolCallRecord` is logged — the step and its siblings are
lost, contradicting "one tool's failure never aborts siblings or the step". -/
theorem sibling_fault_aborts_run :
    (executeTool siblingFaultEnv "calc" "notjson").tool_output
      = "Error: Tool \x27calc\x27 not found" ∧
    (executeTool siblingFaultEnv "echo" "obj").tool_output = "hello" ∧
    (ObservableAgent.run siblingFaultEnv 1 none "q" {} ()).result.status = "error" ∧
    (ObservableAgent.run siblingFaultEnv 1 none "q" {} ()).result.answer
      = "Error: Expecting value" ∧
    (ObservableAgent.run siblingFaultEnv 1 none "q" {} ()).steps_logged = [] := by
  exact ⟨rfl, rfl, rfl, rfl, rfl⟩

/-- Concrete environment for a step whose first requested call is flagged by
the loop detector and whose second is executed. -/
def flaggedFirstEnv : AgentEnv Unit Unit :=
  { gateway := fun _ _ => .ok
      { message := { content := none,
                     tool_calls := some
                       [{ id := "id-a", name := "badtool", arguments := "obj" },
                        { id := "id-b", name := "echo", arguments := "obj" }] } },
    jsonParse := fun s => if s = "obj" then .ok () else .error "Expecting value",
    emptyObj := (),
    getTool := fun name => if name = "echo" then some (fun _ => .ok "42") else none,
    checkToolCall := fun ds name _ =>
      ({ is_looping := name == "badtool", message := "repeat" }, ds),
    checkStagnation := fun ds _ => ({ is_looping := false, message := "" }, ds),
    trace_id := "trace-c2" }

/-- C2 (code bug): when the loop detector flags the first requested call and
the second call is executed, `zip(tool_calls, tool_results)` on line 148
misaligns requests and results: the executed call's result ("42", produced
by the call with id "id-b") is appended as a tool-role message carrying
tool-call id "id-a" — the flagged call's id, which already carries the
loop-warning message — and no message in the conversation ever carries id
"id-b". -/
theorem zip_misattributes_tool_call_id :
    (ObservableAgent.run flaggedFirstEnv 1 none "q" {} ()).messages
      = [{ role := .user, content := some "q" },
         { role := .assistant, content := none,
           tool_calls := some [{ id := "id-a", name := "badtool", arguments := "obj" },
                               { id := "id-b", name := "echo", arguments := "obj" }] },
         { role := .tool, content := some "⚠️ LOOP DETECTED: repeat",
           tool_call_id := some "id-a", name := some "badtool" },
         { role := .tool, content := some "42",
           tool_call_id := some "id-a", name := some "echo" }] ∧
    ((ObservableAgent.run flaggedFirstEnv 1 none "q" {} ()).messages.all
      (fun mg => mg.tool_call_id != some "id-b")) = true := by
  exact ⟨rfl, rfl⟩

/-- Concrete environment whose detector always flags output stagnation. -/
def stagnationEnv : AgentEnv Unit Unit :=
  { gateway := fun _ _ => .ok
      { message := { content := some "same",
                     tool_calls := some [{ id := "id1", name := "t",
                                           arguments := "args" }] } },
    jsonParse := fun _ => .ok (),
    emptyObj := (),
    getTool := fun name => if name = "t" then some (fun _ => .ok "out") else none,
    checkToolCall := fun ds _ _ => ({ is_looping := false, message := "" }, ds),
    checkStagnation := fun ds _ => ({ is_looping := true, message := "repetitive output" }, ds),
    trace_id := "trace-c9" }

theorem nonfault_termination_status_completed_witness :
    ((ObservableAgent.run stagnationEnv 0 none "q" {} ()).result.status = "completed" ∧
     (ObservableAgent.run stagnationEnv 0 none "q" {} ()).result.answer = maxStepsAnswer 0) ∧
    (∃ st', loopSteps stagnationEnv 1 0
        { messages := initialMessages none "q", ds := (),
          tracker := ({} : CostTracker).start_query "q", steps_logged := [], invoked := [] }
      = LoopRes.ok (some "Agent stopped due to stagnation: repetitive output") 1 st') :=
  ⟨nonfault_termination_status_completed.1 stagnationEnv 0 none "q" {} () none 0 _ rfl,
   nonfault_termination_status_completed.2 stagnationEnv 0 0
     { messages := initialMessages none "q", ds := (),
       tracker := ({} : CostTracker).start_query "q", steps_logged := [], invoked := [] }
     { message := { content := some "same",
                    tool_calls := some [{ id := "id1", name := "t",
                                          arguments := "args" }] } }
     [{ id := "id1", name := "t", arguments := "args" }] "same"
     rfl rfl rfl rfl rfl⟩

lemma dispatchToolCalls_append {J DS : Type} (env : AgentEnv J DS) :
    ∀ (l1 l2 : List ToolCall) (ds : DS),
      dispatchToolCalls env ds (l1 ++ l2)
        = ((dispatchToolCalls env ds l1).1
             ++ (dispatchToolCalls env (dispatchToolCalls env ds l1).2.2 l2).1,
           (dispatchToolCalls env ds l1).2.1
             ++ (dispatchToolCalls env (dispatchToolCalls env ds l1).2.2 l2).2.1,
           (dispatchToolCalls env (dispatchToolCalls env ds l1).2.2 l2).2.2) := by
  intro l1
  induction l1 with
  | nil => intro l2 ds; rfl
  | cons tc rest ih =>
    intro l2 ds
    by_cases hl : (env.checkToolCall ds tc.name tc.arguments).1.is_looping = true
    · simp [dispatchToolCalls, hl, ih l2]
    · simp [dispatchToolCalls, hl, ih l2]

/-- C7: when the loop detector flags a requested call `c` (after the scan of
the calls `pre` before it), the scan appends — in `c`'s position — a
tool-role message carrying the loop-warning marker and `c`'s own tool-call
id, queues nothing for `c` (and since `_execute_tool`, which consults the
tool registry, runs exactly once per QUEUED call, the registry receives no
invocation for `c`), and proceeds with the remaining requested calls from
the updated detector state. -/
theorem flagged_call_skipped_with_warning {J DS : Type} (env : AgentEnv J DS)
    (ds dsPre ds1 ds2 : DS) (pre post : List ToolCall) (c : ToolCall)
    (lr : LoopCheckResult) (w1 w2 : List Message) (q1 q2 : List ToolCall)
    (hpre : dispatchToolCalls env ds pre = (w1, q1, dsPre))
    (hc : env.checkToolCall dsPre c.name c.arguments = (lr, ds1))
    (hflag : lr.is_looping = true)
    (hpost : dispatchToolCalls env ds1 post = (w2, q2, ds2)) :
    dispatchToolCalls env ds (pre ++ c :: post)
      = (w1 ++ loopWarningMessage c lr.message :: w2, q1 ++ q2, ds2) ∧
    registryInvocations (q1 ++ q2)
      = registryInvocations q1 ++ registryInvocations q2 ∧
    (loopWarningMessage c lr.message).role = Role.tool ∧
    (loopWarningMessage c lr.message).tool_call_id = some c.id ∧
    (loopWarningMessage c lr.message).content
      = some ("⚠️ LOOP DETECTED: " ++ lr.message) := by
  refine ⟨?_, ?_, rfl, rfl, rfl⟩
  · rw [dispatchToolCalls_append env pre (c :: post) ds, hpre]
    dsimp only
    rw [dispatchToolCalls]
    rw [hc]
    dsimp only
    rw [if_pos hflag, hpost]
  · simp [registryInvocations]

/-- Concrete environment whose detector flags exactly the tool named "bad". -/
def flagOneEnv : AgentEnv Unit Unit :=
  { gateway := fun _ _ => .error "unused",
    jsonParse := fun _ => .ok (),
    emptyObj := (),
    getTool := fun _ => none,
    checkToolCall := fun ds name _ =>
      ({ is_looping := name == "bad", message := "loop-warn" }, ds),
    checkStagnation := fun ds _ => ({ is_looping := false, message := "" }, ds),
    trace_id := "trace-c7" }

theorem flagged_call_skipped_with_warning_witness :
    dispatchToolCalls flagOneEnv ()
        ([] ++ ({ id := "id1", name := "bad", arguments := "a" } : ToolCall) :: [])
      = ([] ++ loopWarningMessage { id := "id1", name := "bad", arguments := "a" }
            "loop-warn" :: [],
         [] ++ [], ()) ∧
    registryInvocations (([] : List ToolCall) ++ [])
      = registryInvocations ([] : List ToolCall) ++ registryInvocations [] ∧
    (loopWarningMessage { id := "id1", name := "bad", arguments := "a" }
      "loop-warn").role = Role.tool ∧
    (loopWarningMessage { id := "id1", name := "bad", arguments := "a" }
      "loop-warn").tool_call_id = some "id1" ∧
    (loopWarningMessage { id := "id1", name := "bad", arguments := "a" }
      "loop-warn").content = some ("⚠️ LOOP DETECTED: " ++ "loop-warn") :=
  flagged_call_skipped_with_warning flagOneEnv () () () () [] []
    { id := "id1", name := "bad", arguments := "a" }
    { is_looping := true, message := "loop-warn" } [] [] [] []
    rfl rfl rfl rfl
